import Mathlib

/-!
Verification of the authentication core of the BlackFangIntel repository.

The definitions below are a shallow embedding of the Python sources
`src/auth.py`, `src/api_auth.py` and `src/config.py`.  Conventions used
throughout:

* Machine randomness is made explicit: `secrets.token_hex` output is passed
  in as an argument (`salt`), and the PBKDF2 digest function
  `hashlib.pbkdf2_hmac(sha256, password, salt, 100000)` is modelled as an
  arbitrary deterministic function `Pbkdf : String -> String -> List Nat`
  returning the digest bytes.  This is faithful for every property proved
  here, since the source only ever treats the digest as an opaque byte
  string that is hex-encoded and compared for equality.
* Timestamps (`datetime.utcnow`, token `exp` and `iat` claims) are UTC Unix
  seconds, modelled as `Int`.  The model assumes the process runs with a
  UTC local timezone, so that `datetime.fromtimestamp` agrees with the UTC
  reading of a timestamp.
* The `jwt` module imported by the sources is PyJWT: three source files
  (`main_production.py`, `main_simplified.py`, `main_complete_production.py`)
  catch `jwt.PyJWTError`, which only PyJWT defines, and PyJWT is the
  distribution that installs a module importable as plain `jwt`.
  PyJWT decoding is modelled by `jwtDecode` below.
* Python exceptions are modelled by `Except`; an HTTP error response is a
  `PyErr.httpError status detail` value.
-/

/-- Hex character for a digit value, as produced by Python `bytes.hex()`
(lowercase).  Values `16` and above never arise for byte digits. -/
def hexDigitChar : Nat → Char
  | 0 => '0' | 1 => '1' | 2 => '2' | 3 => '3' | 4 => '4'
  | 5 => '5' | 6 => '6' | 7 => '7' | 8 => '8' | 9 => '9'
  | 10 => 'a' | 11 => 'b' | 12 => 'c' | 13 => 'd' | 14 => 'e'
  | 15 => 'f' | _ + 16 => '0'

/-- The character list of Python `bytes.hex()`: two lowercase hex digits per
byte. -/
def bytesToHexL : List Nat → List Char
  | [] => []
  | b :: bs => hexDigitChar (b / 16 % 16) :: hexDigitChar (b % 16) :: bytesToHexL bs

/-- Python `bytes.hex()` on a digest given as a list of byte values. -/
def bytesToHex (bs : List Nat) : String :=
  String.mk (bytesToHexL bs)

/-- The digest function `hashlib.pbkdf2_hmac(sha256, password, salt, 100000)`
abstracted as a deterministic map from password and salt to digest bytes. -/
def Pbkdf : Type := String → String → List Nat

/-- Python `str.split(on a colon)`: splits into the maximal list of
colon-free segments.  `splitOnColon [] = [[]]`, matching Python where
splitting the empty string yields one empty part. -/
def splitOnColon : List Char → List (List Char)
  | [] => [[]]
  | c :: rest =>
    if c = ':' then [] :: splitOnColon rest
    else
      match splitOnColon rest with
      | [] => [[c]]
      | p :: ps => (c :: p) :: ps

/-- `secrets.compare_digest` on two hex strings: a constant-time equality
test, which as a function is string equality. -/
def compare_digest (a b : String) : Bool :=
  a == b

/-- `AuthManager.hash_password` (src/auth.py lines 26-47) with the random
salt `secrets.token_hex(32)` made an explicit argument: returns
`hex(pbkdf2_hmac(sha256, password, salt, 100000)) ++ ":" ++ salt`. -/
def hash_password (pb : Pbkdf) (salt : String) (password : String) : String :=
  bytesToHex (pb password salt) ++ ":" ++ salt

/-- `AuthManager.verify_password` (src/auth.py lines 49-75): splits the
stored string on colons; the Python unpacking `stored_hash, salt = ...`
succeeds only when the split has exactly two parts, otherwise the raised
`ValueError` is caught and the function returns `False`.  On success the
digest is recomputed with the extracted salt and compared with
`secrets.compare_digest`. -/
def verify_password (pb : Pbkdf) (password : String) (hashed_password : String) : Bool :=
  match splitOnColon hashed_password.data with
  | [stored_hash, salt] =>
      compare_digest (bytesToHex (pb password (String.mk salt))) (String.mk stored_hash)
  | _ => false

/-- Result record of `validate_password_strength` (src/auth.py 323-375). -/
structure StrengthResult where
  valid : Bool
  errors : List String
  score : Nat
deriving DecidableEq, Repr

/-- The fixed special character set of `validate_password_strength`
(src/auth.py line 368). -/
def specialChars : List Char :=
  "!@#$%^&*()_+-=[]\x7b\x7d|;:,.<>?".data

/-- `validate_password_strength` (src/auth.py lines 323-375): five
independent checks, each either appending one error message and clearing
`valid`, or incrementing `score`. -/
def validate_password_strength (password : String) : StrengthResult :=
  let r : StrengthResult := { valid := true, errors := [], score := 0 }
  let r := if password.length < 8 then
      { r with errors := r.errors ++ ["Password must be at least 8 characters long"], valid := false }
    else { r with score := r.score + 1 }
  let r := if !password.data.any Char.isUpper then
      { r with errors := r.errors ++ ["Password must contain at least one uppercase letter"], valid := false }
    else { r with score := r.score + 1 }
  let r := if !password.data.any Char.isLower then
      { r with errors := r.errors ++ ["Password must contain at least one lowercase letter"], valid := false }
    else { r with score := r.score + 1 }
  let r := if !password.data.any Char.isDigit then
      { r with errors := r.errors ++ ["Password must contain at least one number"], valid := false }
    else { r with score := r.score + 1 }
  let r := if !password.data.any (fun c => specialChars.contains c) then
      { r with errors := r.errors ++ ["Password must contain at least one special character"], valid := false }
    else { r with score := r.score + 1 }
  r

/-- A character is a lowercase hex digit, as produced by
`secrets.token_hex`. -/
def isHexChar (c : Char) : Bool :=
  c.isDigit || ('a' ≤ c && c ≤ 'f')

-- Helper lemmas for the password hasher.

theorem string_data_append (s t : String) : (s ++ t).data = s.data ++ t.data := rfl

theorem hexDigitChar_ne_colon (n : Nat) : hexDigitChar n ≠ ':' := by
  unfold hexDigitChar
  split <;> decide

theorem bytesToHexL_no_colon (bs : List Nat) : ∀ c ∈ bytesToHexL bs, c ≠ ':' := by
  induction bs with
  | nil => intro c hc; cases hc
  | cons b bs ih =>
    intro c hc
    simp only [bytesToHexL, List.mem_cons] at hc
    rcases hc with h | h | h
    · exact h ▸ hexDigitChar_ne_colon _
    · exact h ▸ hexDigitChar_ne_colon _
    · exact ih c h

theorem isHexChar_ne_colon (c : Char) (h : isHexChar c = true) : c ≠ ':' := by
  intro heq
  rw [heq] at h
  exact absurd h (by decide)

theorem splitOnColon_of_no_colon (l : List Char) (h : ∀ c ∈ l, c ≠ ':') :
    splitOnColon l = [l] := by
  induction l with
  | nil => rfl
  | cons c rest ih =>
    have hc : c ≠ ':' := h c (List.mem_cons_self c rest)
    have hrest : splitOnColon rest = [rest] := ih (fun x hx => h x (List.mem_cons_of_mem c hx))
    simp only [splitOnColon, if_neg hc, hrest]

theorem splitOnColon_append (a b : List Char) (ha : ∀ c ∈ a, c ≠ ':')
    (hb : ∀ c ∈ b, c ≠ ':') :
    splitOnColon (a ++ ':' :: b) = [a, b] := by
  induction a with
  | nil =>
    simp only [List.nil_append, splitOnColon, if_pos rfl, splitOnColon_of_no_colon b hb,
      if_true]
  | cons c rest ih =>
    have hc : c ≠ ':' := ha c (List.mem_cons_self c rest)
    have hrest := ih (fun x hx => ha x (List.mem_cons_of_mem c hx))
    simp only [List.cons_append, splitOnColon, if_neg hc]
    rw [show rest.append (':' :: b) = rest ++ ':' :: b from rfl, hrest]

theorem string_mk_data (s : String) : String.mk s.data = s := rfl

/-- C1: for every password `p` and every digest function, verifying `p`
against the stored string produced by hashing `p` with a fresh hex salt
returns `true`.  The salt is quantified over all outputs
`secrets.token_hex` can produce (strings of lowercase hex characters). -/
theorem verify_password_hash_password_roundtrip (pb : Pbkdf) (p salt : String)
    (hsalt : salt.data.all isHexChar = true) :
    verify_password pb p (hash_password pb salt p) = true := by
  have hsalt' : ∀ c ∈ salt.data, c ≠ ':' := by
    intro c hc
    exact isHexChar_ne_colon c (by
      have := List.all_eq_true.mp hsalt c hc
      exact this)
  have hdata : (hash_password pb salt p).data
      = bytesToHexL (pb p salt) ++ ':' :: salt.data := by
    simp only [hash_password, string_data_append, List.append_assoc]
    rfl
  unfold verify_password
  rw [hdata, splitOnColon_append _ _ (bytesToHexL_no_colon (pb p salt)) hsalt']
  simp only [compare_digest, string_mk_data, bytesToHex]
  exact beq_self_eq_true _

/-- Digest function used to instantiate witnesses: digest bytes are the
character codes of the password. -/
def pbTest : Pbkdf := fun p _ => p.data.map Char.toNat

/-- Witness for C1 at a concrete password and salt. -/
theorem verify_password_hash_password_roundtrip_witness :
    verify_password pbTest "Str0ng!Pass" (hash_password pbTest "0a1b" "Str0ng!Pass") = true :=
  verify_password_hash_password_roundtrip pbTest "Str0ng!Pass" "0a1b" (by decide)

/-- C4: a stored string that does not split on colons into exactly two
parts makes `verify_password` return `false` for every password (the
Python `ValueError` from tuple unpacking is caught and turned into
`False`; totality of the Lean function reflects that no exception
escapes). -/
theorem verify_password_malformed_false (pb : Pbkdf) (p s : String)
    (h : (splitOnColon s.data).length ≠ 2) :
    verify_password pb p s = false := by
  unfold verify_password
  rcases hs : splitOnColon s.data with _ | ⟨a, _ | ⟨b, _ | t⟩⟩
  · rfl
  · rfl
  · exact absurd (by rw [hs]; rfl) h
  · rfl

/-- Witness for C4: a stored string with no colon at all. -/
theorem verify_password_malformed_false_witness :
    verify_password pbTest "pw" "not-a-valid-format" = false :=
  verify_password_malformed_false pbTest "pw" "not-a-valid-format" (by decide)

/-- C8: the strength validator accumulates one error per violated rule and
its `valid` flag is `true` exactly when the error list is empty; on
`"Abc"` it reports exactly the three errors for length, digit and special
character, with score 2 for the two satisfied rules. -/
theorem validate_password_strength_spec :
    validate_password_strength "Abc"
      = { valid := false,
          errors := ["Password must be at least 8 characters long",
                     "Password must contain at least one number",
                     "Password must contain at least one special character"],
          score := 2 }
    ∧ ∀ p : String, (validate_password_strength p).valid = true
        ↔ (validate_password_strength p).errors = [] := by
  constructor
  · decide
  · intro p
    unfold validate_password_strength
    split <;> split <;> split <;> split <;> split <;> simp

/-- A decoded JWT claim set as produced by the token constructors in
src/auth.py.  Claims the code reads with `payload.get` are `Option`
valued; `exp` and `iat` are always written by `create_access_token` and
`create_refresh_token`, so they are plain fields (Unix seconds, UTC). -/
structure JwtPayload where
  company_id : Option Nat
  email : Option String
  subscription_plan : Option String
  iat : Int
  exp : Int
  typ : Option String
deriving DecidableEq, Repr

/-- A signed token: `jwt.encode(payload, secret, algorithm)` is injective
on its inputs, so a token is modelled as the payload together with the key
and algorithm it was signed with.  A tampered token is one whose recorded
key differs from the verification key. -/
structure Jwt where
  payload : JwtPayload
  secret : String
  alg : String
deriving DecidableEq, Repr

/-- The settings consumed by `AuthManager.__init__` (src/config.py):
`JWT_SECRET`, `JWT_ALGORITHM`, `JWT_ACCESS_TOKEN_EXPIRE_MINUTES`,
`JWT_REFRESH_TOKEN_EXPIRE_DAYS`. -/
structure Config where
  jwtSecret : String
  jwtAlgorithm : String
  accessTokenExpireMinutes : Nat
  refreshTokenExpireDays : Nat
deriving DecidableEq, Repr

/-- Errors raised by PyJWT `jwt.decode`: `ExpiredSignatureError`, and all
other `PyJWTError` subclasses (invalid signature, malformed token,
disallowed algorithm) collapsed into one constructor. -/
inductive JwtLibError where
  | expiredSignature : JwtLibError
  | invalidToken : String → JwtLibError
deriving DecidableEq, Repr

/-- PyJWT `jwt.decode(token, key, algorithms)`, modelled from its
documented validation order: the signature is verified first (valid
exactly when the token was signed with the verification key and an
allowed algorithm), then the `exp` claim is validated; per RFC 7519 the
current time must be strictly before `exp`, so PyJWT raises
`ExpiredSignatureError` when `exp <= now` (leeway 0). -/
def jwtDecode (tok : Jwt) (key : String) (algorithms : List String) (now : Int) :
    Except JwtLibError JwtPayload :=
  if tok.secret = key ∧ tok.alg ∈ algorithms then
    if tok.payload.exp ≤ now then .error .expiredSignature
    else .ok tok.payload
  else .error (.invalidToken "Signature verification failed")

/-- Python exceptions that escape the modelled functions: a FastAPI
`HTTPException` with a string detail, an `HTTPException` whose detail is a
message plus an error list (used by the weak-password responses), and an
`AttributeError`. -/
inductive PyErr where
  | httpError : Nat → String → PyErr
  | httpErrorDetail : Nat → String → List String → PyErr
  | attributeError : String → PyErr
deriving DecidableEq, Repr

/-- The message of the `AttributeError` raised when Python evaluates the
clause `except jwt.JWTError` in src/auth.py: PyJWT defines no attribute
`JWTError` (its base class is `PyJWTError`), so looking the name up fails
while the original exception is being handled, and the `AttributeError`
replaces it. -/
def jwtAttrErrMsg : String :=
  "module jwt has no attribute JWTError"

/-- `AuthManager.create_access_token` (src/auth.py lines 77-96): copies the
data and adds `exp = now + minutes`, `iat = now`, `type = access`. -/
def create_access_token (cfg : Config) (company_id : Option Nat) (email : Option String)
    (subscription_plan : Option String) (now : Int) : Jwt :=
  { payload :=
      { company_id := company_id, email := email, subscription_plan := subscription_plan,
        iat := now, exp := now + cfg.accessTokenExpireMinutes * 60, typ := some "access" },
    secret := cfg.jwtSecret, alg := cfg.jwtAlgorithm }

/-- `AuthManager.create_refresh_token` (src/auth.py lines 98-117): same
shape with `type = refresh` and a TTL in days. -/
def create_refresh_token (cfg : Config) (company_id : Option Nat) (email : Option String)
    (subscription_plan : Option String) (now : Int) : Jwt :=
  { payload :=
      { company_id := company_id, email := email, subscription_plan := subscription_plan,
        iat := now, exp := now + cfg.refreshTokenExpireDays * 86400, typ := some "refresh" },
    secret := cfg.jwtSecret, alg := cfg.jwtAlgorithm }

/-- `AuthManager.decode_token` (src/auth.py lines 119-165), run against
PyJWT.  The body calls `jwt.decode`; an `ExpiredSignatureError` is caught
by the first except clause and becomes HTTP 401 `Token has expired`.  Any
other exception reaching the except clauses - the `HTTPException` raised
for a wrong `type` claim, the `HTTPException` of the explicit expiry
check, or any other `PyJWTError` - makes Python evaluate
`except jwt.JWTError`, which raises `AttributeError` because PyJWT has no
such attribute; that `AttributeError` escapes in place of the original
exception.  The explicit expiry comparison
`datetime.fromtimestamp(exp) < datetime.utcnow()` is `exp < now` under a
UTC process timezone; it is unreachable because `jwt.decode` already
rejected every `exp ≤ now`. -/
def decode_token (cfg : Config) (token : Jwt) (token_type : String) (now : Int) :
    Except PyErr JwtPayload :=
  match jwtDecode token cfg.jwtSecret [cfg.jwtAlgorithm] now with
  | .error .expiredSignature => .error (.httpError 401 "Token has expired")
  | .error (.invalidToken _) => .error (.attributeError jwtAttrErrMsg)
  | .ok payload =>
    if payload.typ ≠ some token_type then .error (.attributeError jwtAttrErrMsg)
    else if payload.exp < now then .error (.attributeError jwtAttrErrMsg)
    else .ok payload

/-- One record of `SessionManager.active_sessions` (src/auth.py 435-442). -/
structure SessionData where
  company_id : Nat
  created_at : Int
  is_active : Bool
deriving DecidableEq, Repr

/-- The `SessionManager.active_sessions` dictionary, keyed by the refresh
token value (token strings are in bijection with `Jwt` values since
`jwt.encode` is injective and deterministic). -/
def SessionStore : Type := Jwt → Option SessionData

/-- `SessionManager.create_session` (src/auth.py 435-442): dictionary
insert, overwriting any previous entry for the same token. -/
def create_session (store : SessionStore) (company_id : Nat) (refresh_token : Jwt)
    (now : Int) : SessionStore :=
  fun k => if k = refresh_token then
    some { company_id := company_id, created_at := now, is_active := true }
  else store k

/-- `SessionManager.validate_session` (src/auth.py 444-446): dictionary
lookup, returned regardless of the `is_active` flag. -/
def validate_session (store : SessionStore) (refresh_token : Jwt) : Option SessionData :=
  store refresh_token

/-- `SessionManager.revoke_all_sessions` (src/auth.py 453-457): sets
`is_active = False` on every record whose `company_id` matches, leaving
all other records and fields untouched. -/
def revoke_all_sessions (store : SessionStore) (company_id : Nat) : SessionStore :=
  fun k => (store k).map
    (fun d => if d.company_id = company_id then { d with is_active := false } else d)

/-- C3: for a token whose signature verifies, `decode_token` fails with
the TokenExpired error (HTTP 401, detail `Token has expired`) exactly
when `now ≥ exp`; when `now < exp` the expiry checks pass (any failure
then is not a TokenExpired failure). -/
theorem decode_token_expired_iff (cfg : Config) (tok : Jwt) (ttype : String) (now : Int)
    (hsec : tok.secret = cfg.jwtSecret) (halg : tok.alg = cfg.jwtAlgorithm) :
    decode_token cfg tok ttype now = .error (.httpError 401 "Token has expired")
      ↔ tok.payload.exp ≤ now := by
  have hcond : tok.secret = cfg.jwtSecret ∧ tok.alg ∈ [cfg.jwtAlgorithm] :=
    ⟨hsec, by simp [halg]⟩
  unfold decode_token jwtDecode
  rw [if_pos hcond]
  by_cases hexp : tok.payload.exp ≤ now
  · rw [if_pos hexp]
    simp [hexp]
  · rw [if_neg hexp]
    split
    · rename_i heq
      exact absurd heq (by simp)
    · simp [hexp]
    · rename_i payload heq
      injection heq with h
      subst h
      simp only [hexp, iff_false]
      split_ifs <;> simp

/-- Concrete settings used by witnesses. -/
def cfgW : Config :=
  { jwtSecret := "test-secret", jwtAlgorithm := "HS256",
    accessTokenExpireMinutes := 60, refreshTokenExpireDays := 30 }

/-- A validly signed, unexpired access token for witnesses. -/
def accessTokW : Jwt :=
  { payload :=
      { company_id := some 1, email := some "demo@blackfangintel.com",
        subscription_plan := some "professional", iat := 0, exp := 100,
        typ := some "access" },
    secret := "test-secret", alg := "HS256" }

/-- A validly signed, unexpired refresh token for witnesses. -/
def refreshTokW : Jwt :=
  { payload :=
      { company_id := some 1, email := some "demo@blackfangintel.com",
        subscription_plan := some "professional", iat := 0, exp := 1000,
        typ := some "refresh" },
    secret := "test-secret", alg := "HS256" }

/-- C2 (bug exhibit): a validly signed, unexpired refresh token presented
where an access token is expected is rejected - the wrong-type
`HTTPException` is raised - but while Python handles it the clause
`except jwt.JWTError` is evaluated and raises `AttributeError`, because
PyJWT has no attribute `JWTError`.  So `decode_token` fails with an
`AttributeError` instead of the documented HTTP 401 wrong-type error
(its own docstring promises `HTTPException`); symmetrically for an access
token where a refresh token is expected.  No claims are ever returned for
a wrong-type token. -/
theorem decode_token_wrong_type_attribute_error :
    decode_token cfgW refreshTokW "access" 10 = .error (.attributeError jwtAttrErrMsg)
    ∧ decode_token cfgW accessTokW "refresh" 10 = .error (.attributeError jwtAttrErrMsg)
    ∧ (∀ p, decode_token cfgW refreshTokW "access" 10 ≠ .ok p)
    ∧ (∀ p, decode_token cfgW accessTokW "refresh" 10 ≠ .ok p) := by
  refine ⟨rfl, rfl, ?_, ?_⟩
  · intro p h
    have h' : (Except.error (PyErr.attributeError jwtAttrErrMsg) : Except PyErr JwtPayload)
        = Except.ok p := h
    exact Except.noConfusion h'
  · intro p h
    have h' : (Except.error (PyErr.attributeError jwtAttrErrMsg) : Except PyErr JwtPayload)
        = Except.ok p := h
    exact Except.noConfusion h'

/-- An expired but validly signed token for the C3 witness. -/
def expiredTokW : Jwt :=
  { payload :=
      { company_id := some 1, email := some "demo@blackfangintel.com",
        subscription_plan := some "professional", iat := 0, exp := 100,
        typ := some "access" },
    secret := "test-secret", alg := "HS256" }

/-- Witness for C3: at `now = 200` a token with `exp = 100` fails with the
TokenExpired error, by the boundary theorem. -/
theorem decode_token_expired_iff_witness :
    decode_token cfgW expiredTokW "access" 200 = .error (.httpError 401 "Token has expired")
      ↔ (100 : Int) ≤ 200 :=
  decode_token_expired_iff cfgW expiredTokW "access" 200 rfl rfl

/-- The `APIResponse` shape returned by logout and change-password
(src/models.py, fields used by src/api_auth.py). -/
structure APIResp where
  success : Bool
  message : String
deriving DecidableEq, Repr

/-- The dictionary returned by the `validate-token` endpoint
(src/api_auth.py 462-496): either `valid = true` with claim fields, or
`valid = false` with an `error` entry. -/
structure ValidateResp where
  valid : Bool
  company_id : Option Nat
  email : Option String
  subscription_plan : Option String
  expires_at : Option Int
  issued_at : Option Int
  error : Option String
deriving DecidableEq, Repr

/-- `validate_token` (src/api_auth.py lines 462-496): decodes as access;
on success returns the claim fields with `valid = true`; an
`HTTPException` is reported as `valid = false` with its detail; any other
exception (such as the `AttributeError` from the except-clause slip)
becomes `valid = false` with the fixed message. -/
def validate_token (cfg : Config) (tok : Jwt) (now : Int) : ValidateResp :=
  match decode_token cfg tok "access" now with
  | .ok p =>
      { valid := true, company_id := p.company_id, email := p.email,
        subscription_plan := p.subscription_plan, expires_at := some p.exp,
        issued_at := some p.iat, error := none }
  | .error (.httpError _ d) =>
      { valid := false, company_id := none, email := none, subscription_plan := none,
        expires_at := none, issued_at := none, error := some d }
  | .error (.httpErrorDetail _ m _) =>
      { valid := false, company_id := none, email := none, subscription_plan := none,
        expires_at := none, issued_at := none, error := some m }
  | .error (.attributeError _) =>
      { valid := false, company_id := none, email := none, subscription_plan := none,
        expires_at := none, issued_at := none, error := some "Token validation failed" }

/-- `logout_user` (src/api_auth.py lines 272-306): decodes the access
token, revokes every session of the recovered `company_id`
(`payload.get` may yield nothing, in which case the revocation loop
matches no record), and reports success; every exception is caught and
the same success response is returned with the store untouched. -/
def logout_user (cfg : Config) (tok : Jwt) (store : SessionStore) (now : Int) :
    APIResp × SessionStore :=
  match decode_token cfg tok "access" now with
  | .ok p =>
      ({ success := true, message := "Logged out successfully" },
        match p.company_id with
        | some cid => revoke_all_sessions store cid
        | none => store)
  | .error _ => ({ success := true, message := "Logged out successfully" }, store)

/-- C6: logout reports `success = true` on every input token - valid,
expired, tampered or of the wrong type - and on every session store;
`validate_token` always returns a tagged result: `valid = true` with no
error entry, or `valid = false` with an error message, never an escaping
exception (both functions are total). -/
theorem logout_validate_never_propagate :
    (∀ (cfg : Config) (tok : Jwt) (store : SessionStore) (now : Int),
      (logout_user cfg tok store now).1 =
        { success := true, message := "Logged out successfully" })
    ∧ (∀ (cfg : Config) (tok : Jwt) (now : Int),
      ((validate_token cfg tok now).valid = true ∧ (validate_token cfg tok now).error = none)
      ∨ ((validate_token cfg tok now).valid = false
          ∧ (validate_token cfg tok now).error ≠ none)) := by
  constructor
  · intro cfg tok store now
    cases hd : decode_token cfg tok "access" now with
    | ok p => simp [logout_user, hd]
    | error e => simp [logout_user, hd]
  · intro cfg tok now
    cases hd : decode_token cfg tok "access" now with
    | ok p => left; simp [validate_token, hd]
    | error e => right; cases e <;> simp [validate_token, hd]

/-- Python `str.lower()` (ASCII model) on the character list. -/
def pyLower (s : String) : String :=
  String.mk (s.data.map Char.toLower)

/-- Python default whitespace for `str.strip()`. -/
def pySpace (c : Char) : Bool :=
  c = ' ' || c = '\t' || c = '\n' || c = '\r' || c = '\x0b' || c = '\x0c'

/-- Python `str.strip()`: removes leading and trailing whitespace. -/
def pyStrip (s : String) : String :=
  String.mk (((s.data.dropWhile pySpace).reverse.dropWhile pySpace).reverse)

/-- `Settings.DEMO_EMAIL` (src/config.py line 103). -/
def demoEmail : String := "demo@blackfangintel.com"

/-- `Settings.DEMO_PASSWORD` (src/config.py line 104). -/
def demoPassword : String := "demo123"

/-- A row of the `companies` table, with the columns the auth endpoints
read. -/
structure Company where
  id : Nat
  name : String
  email : String
  password_hash : String
  company_name : String
  industry : String
  subscription_plan : String
  monthly_fee : Nat
  is_active : Bool
deriving DecidableEq, Repr

/-- The success payload of `login_user` (src/api_auth.py 53-67 and
99-114), with the nested user dictionary flattened; the demo branch has
no industry entry. -/
structure LoginResponse where
  success : Bool
  access_token : Jwt
  refresh_token : Jwt
  token_type : String
  expires_in : Nat
  user_id : Nat
  user_name : String
  user_email : String
  user_company_name : String
  user_subscription_plan : String
  user_monthly_fee : Nat
  user_industry : Option String
deriving DecidableEq, Repr

/-- The database half of `login_user` (src/api_auth.py lines 69-114):
`SELECT * FROM companies WHERE email = $1 AND is_active = TRUE` followed
by `verify_password`.  Returns the authenticated row, or nothing when the
pool is absent, no active row matches, or the password does not verify -
exactly the runs of `login_user` that fall through to the final 401. -/
def db_authenticate (pb : Pbkdf) (dbPool : Option (List Company)) (email password : String) :
    Option Company :=
  match dbPool with
  | none => none
  | some db =>
    match db.find? (fun u => u.email == email && u.is_active) with
    | some u => if verify_password pb password u.password_hash then some u else none
    | none => none

/-- `login_user` (src/api_auth.py lines 23-130): normalizes the email with
`lower().strip()`; the demo branch issues tokens for company 1 without
touching the database; otherwise database authentication either succeeds
(tokens issued, session created; the `updated_at` touch is a persistence
side effect outside this model) or every failing path raises the same
HTTP 401 `Invalid email or password`. -/
def login_user (cfg : Config) (pb : Pbkdf) (dbPool : Option (List Company))
    (store : SessionStore) (email password : String) (now : Int) :
    Except PyErr LoginResponse × SessionStore :=
  let em := pyStrip (pyLower email)
  if em = demoEmail ∧ password = demoPassword then
    let access_token := create_access_token cfg (some 1) (some em) (some "professional") now
    let refresh_token := create_refresh_token cfg (some 1) (some em) (some "professional") now
    (.ok { success := true, access_token := access_token, refresh_token := refresh_token,
           token_type := "bearer", expires_in := cfg.accessTokenExpireMinutes * 60,
           user_id := 1, user_name := "Demo Automotive Dealership", user_email := em,
           user_company_name := "Demo Motors Pvt Ltd",
           user_subscription_plan := "professional", user_monthly_fee := 45000,
           user_industry := none },
     create_session store 1 refresh_token now)
  else
    match db_authenticate pb dbPool em password with
    | some u =>
      let access_token := create_access_token cfg (some u.id) (some u.email)
        (some u.subscription_plan) now
      let refresh_token := create_refresh_token cfg (some u.id) (some u.email)
        (some u.subscription_plan) now
      (.ok { success := true, access_token := access_token, refresh_token := refresh_token,
             token_type := "bearer", expires_in := cfg.accessTokenExpireMinutes * 60,
             user_id := u.id, user_name := u.name, user_email := u.email,
             user_company_name := u.company_name,
             user_subscription_plan := u.subscription_plan,
             user_monthly_fee := u.monthly_fee, user_industry := some u.industry },
       create_session store u.id refresh_token now)
    | none => (.error (.httpError 401 "Invalid email or password"), store)

/-- The `Token` response of the refresh endpoint (src/models.py fields
used at src/api_auth.py 164-168). -/
structure TokenResp where
  access_token : Jwt
  token_type : String
  expires_in : Nat
deriving DecidableEq, Repr

/-- `refresh_access_token` (src/api_auth.py lines 132-177): decodes as a
refresh token (an `HTTPException` from the decode is re-raised, any other
exception - including the `AttributeError` from the except-clause slip in
`decode_token` - is caught and becomes HTTP 401 `Invalid refresh token`);
then requires an existing session with `is_active` truthy, else HTTP 401
`Session expired or invalid`; then mints a new access token from the
refresh claims (a missing `company_id` or `email` claim is a `KeyError`,
caught into the generic 401). -/
def refresh_access_token (cfg : Config) (store : SessionStore) (rt : Jwt) (now : Int) :
    Except PyErr TokenResp :=
  match decode_token cfg rt "refresh" now with
  | .error (.httpError s d) => .error (.httpError s d)
  | .error (.httpErrorDetail s m es) => .error (.httpErrorDetail s m es)
  | .error (.attributeError _) => .error (.httpError 401 "Invalid refresh token")
  | .ok payload =>
    match validate_session store rt with
    | none => .error (.httpError 401 "Session expired or invalid")
    | some session =>
      if session.is_active = false then .error (.httpError 401 "Session expired or invalid")
      else
        match payload.company_id, payload.email with
        | some cid, some em =>
          .ok { access_token :=
                  create_access_token cfg (some cid) (some em) payload.subscription_plan now,
                token_type := "bearer", expires_in := cfg.accessTokenExpireMinutes * 60 }
        | _, _ => .error (.httpError 401 "Invalid refresh token")

/-- After `revoke_all_sessions`, every surviving record of the revoked
tenant is inactive. -/
theorem revoke_all_sessions_inactive (store : SessionStore) (cid : Nat) (k : Jwt)
    (d : SessionData) (h : revoke_all_sessions store cid k = some d)
    (hc : d.company_id = cid) : d.is_active = false := by
  unfold revoke_all_sessions at h
  cases hs : store k with
  | none => rw [hs] at h; cases h
  | some d0 =>
    rw [hs] at h
    simp only [Option.map] at h
    injection h with h
    by_cases h0 : d0.company_id = cid
    · rw [if_pos h0] at h
      rw [← h]
    · rw [if_neg h0] at h
      rw [← h] at hc
      exact absurd hc h0

/-- A refresh call on a token whose session record is inactive never
returns a new access token. -/
theorem refresh_fails_on_inactive (cfg : Config) (store : SessionStore) (rt : Jwt)
    (now : Int) (d : SessionData) (hs : store rt = some d) (hi : d.is_active = false) :
    ∀ t, refresh_access_token cfg store rt now ≠ .ok t := by
  intro t h
  unfold refresh_access_token at h
  cases hd : decode_token cfg rt "refresh" now with
  | error e => rw [hd] at h; cases e <;> simp at h
  | ok p =>
    rw [hd] at h
    simp only [validate_session] at h
    rw [hs] at h
    simp [hi] at h

/-- C5: after `revoke_all_sessions tenantId`, the store keeps exactly the
records it had - same keys, same `company_id` and `created_at` - with
`is_active` cleared on the records of that tenant and every other record
unchanged; and a subsequent refresh with a refresh token of that tenant
(one that still decodes, and whose session record belongs to the tenant)
fails with HTTP 401 `Session expired or invalid` instead of issuing a new
access token. -/
theorem revoke_all_then_refresh_session_expired (cfg : Config) (store : SessionStore)
    (cid : Nat) (rt : Jwt) (now : Int) (d : SessionData) (p : JwtPayload)
    (hs : store rt = some d) (hcid : d.company_id = cid)
    (hdec : decode_token cfg rt "refresh" now = .ok p) :
    (∀ k, store k = none → revoke_all_sessions store cid k = none)
    ∧ (∀ k d0, store k = some d0 → revoke_all_sessions store cid k
        = some { company_id := d0.company_id, created_at := d0.created_at,
                 is_active := if d0.company_id = cid then false else d0.is_active })
    ∧ refresh_access_token cfg (revoke_all_sessions store cid) rt now
        = .error (.httpError 401 "Session expired or invalid") := by
  refine ⟨?_, ?_, ?_⟩
  · intro k hk
    simp [revoke_all_sessions, hk]
  · intro k d0 hk
    obtain ⟨c0, t0, a0⟩ := d0
    simp only [revoke_all_sessions, hk, Option.map]
    by_cases h0 : c0 = cid
    · simp [h0]
    · simp [h0]
  · have hv : revoke_all_sessions store cid rt = some { d with is_active := false } := by
      simp [revoke_all_sessions, hs, hcid]
    unfold refresh_access_token
    rw [hdec]
    simp only [validate_session]
    rw [hv]
    simp

/-- Session store fixture: one active session of tenant 1, keyed by the
witness refresh token. -/
def storeW : SessionStore :=
  fun k => if k = refreshTokW then some { company_id := 1, created_at := 0, is_active := true }
  else none

/-- Witness for C5: revoking tenant 1 makes a refresh with its still-valid
refresh token fail with the session-expired error. -/
theorem revoke_all_then_refresh_session_expired_witness :
    refresh_access_token cfgW (revoke_all_sessions storeW 1) refreshTokW 10
      = .error (.httpError 401 "Session expired or invalid") :=
  (revoke_all_then_refresh_session_expired cfgW storeW 1 refreshTokW 10
    { company_id := 1, created_at := 0, is_active := true } refreshTokW.payload
    (by simp [storeW]) rfl rfl).2.2

/-- C7: any two failing login attempts - tenant absent, tenant inactive
(the lookup filters on `is_active = TRUE`, so both look the same), the
database pool missing, or a password mismatch - produce literally the same
error response, HTTP 401 `Invalid email or password`, and leave the
session store untouched, so the response does not reveal whether an
account exists. -/
theorem login_failures_indistinguishable (cfg1 cfg2 : Config) (pb1 pb2 : Pbkdf)
    (dbP1 dbP2 : Option (List Company)) (st1 st2 : SessionStore)
    (e1 pw1 e2 pw2 : String) (now1 now2 : Int)
    (h1 : ¬(pyStrip (pyLower e1) = demoEmail ∧ pw1 = demoPassword))
    (h2 : db_authenticate pb1 dbP1 (pyStrip (pyLower e1)) pw1 = none)
    (h3 : ¬(pyStrip (pyLower e2) = demoEmail ∧ pw2 = demoPassword))
    (h4 : db_authenticate pb2 dbP2 (pyStrip (pyLower e2)) pw2 = none) :
    (login_user cfg1 pb1 dbP1 st1 e1 pw1 now1).1
        = .error (.httpError 401 "Invalid email or password")
    ∧ (login_user cfg2 pb2 dbP2 st2 e2 pw2 now2).1
        = (login_user cfg1 pb1 dbP1 st1 e1 pw1 now1).1
    ∧ (login_user cfg1 pb1 dbP1 st1 e1 pw1 now1).2 = st1
    ∧ (login_user cfg2 pb2 dbP2 st2 e2 pw2 now2).2 = st2 := by
  have g1 : login_user cfg1 pb1 dbP1 st1 e1 pw1 now1
      = (.error (.httpError 401 "Invalid email or password"), st1) := by
    simp only [login_user]
    rw [if_neg h1, h2]
  have g2 : login_user cfg2 pb2 dbP2 st2 e2 pw2 now2
      = (.error (.httpError 401 "Invalid email or password"), st2) := by
    simp only [login_user]
    rw [if_neg h3, h4]
  rw [g1, g2]
  exact ⟨rfl, rfl, rfl, rfl⟩

/-- Company fixture for witnesses: active tenant 5 whose stored credential
is the hash of `OldPass1!` under the witness digest function. -/
def companyW : Company :=
  { id := 5, name := "Acme", email := "user@x.com",
    password_hash := hash_password pbTest "0a" "OldPass1!",
    company_name := "Acme Motors", industry := "Automotive",
    subscription_plan := "basic", monthly_fee := 25000, is_active := true }

/-- Empty session store fixture. -/
def emptyStore : SessionStore := fun _ => none

/-- Witness for C7: an absent tenant and a wrong password against an
existing tenant yield the same 401 error. -/
theorem login_failures_indistinguishable_witness :
    (login_user cfgW pbTest none emptyStore "ghost@x.com" "pw" 0).1
        = .error (.httpError 401 "Invalid email or password")
    ∧ (login_user cfgW pbTest (some [companyW]) emptyStore "user@x.com" "WrongPass9!" 7).1
        = (login_user cfgW pbTest none emptyStore "ghost@x.com" "pw" 0).1 := by
  have h := login_failures_indistinguishable cfgW cfgW pbTest pbTest none (some [companyW])
    emptyStore emptyStore "ghost@x.com" "pw" "user@x.com" "WrongPass9!" 0 7
    (by decide) (by decide) (by decide) (by decide)
  exact ⟨h.1, h.2.1⟩

/-- `change_password` (src/api_auth.py lines 365-460): requires both
passwords (Python falsiness: the empty string counts as missing), checks
the strength of the new password, decodes the access token (an
`HTTPException` is re-raised, any other exception becomes HTTP 500),
loads the active user row by the `company_id` claim (a missing claim
matches no row), verifies the old password, then stores the hash of the
new password (fresh salt passed explicitly) and revokes every session of
the tenant.  The returned triple is (response, companies table, session
store). -/
def change_password (cfg : Config) (pb : Pbkdf) (tok : Jwt)
    (old_password new_password : String) (db : List Company) (store : SessionStore)
    (salt : String) (now : Int) :
    Except PyErr APIResp × List Company × SessionStore :=
  if old_password = "" ∨ new_password = "" then
    (.error (.httpError 400 "Old password and new password are required"), db, store)
  else
    let v := validate_password_strength new_password
    if v.valid = false then
      (.error (.httpErrorDetail 400 "New password does not meet security requirements"
        v.errors), db, store)
    else
      match decode_token cfg tok "access" now with
      | .error (.httpError s d) => (.error (.httpError s d), db, store)
      | .error (.httpErrorDetail s m es) => (.error (.httpErrorDetail s m es), db, store)
      | .error (.attributeError _) =>
          (.error (.httpError 500 "Password change failed due to server error"), db, store)
      | .ok payload =>
        match payload.company_id with
        | none => (.error (.httpError 404 "User not found"), db, store)
        | some cid =>
          match db.find? (fun c => c.id == cid && c.is_active) with
          | none => (.error (.httpError 404 "User not found"), db, store)
          | some u =>
            if verify_password pb old_password u.password_hash = false then
              (.error (.httpError 400 "Current password is incorrect"), db, store)
            else
              (.ok { success := true,
                     message := "Password changed successfully. Please login again." },
               db.map (fun v2 => if v2.id = cid then
                 { v2 with password_hash := hash_password pb salt new_password } else v2),
               revoke_all_sessions store cid)

/-- C9: with a valid access token, a correct old password and a strong new
password, `change_password` succeeds, replaces exactly the stored hash of
that tenant with the hash of the new password, leaves every session of
the tenant inactive, and makes any subsequent refresh with a refresh
token whose session belongs to that tenant fail. -/
theorem change_password_success_revokes (cfg : Config) (pb : Pbkdf) (tok : Jwt)
    (oldPw newPw : String) (db : List Company) (store : SessionStore) (salt : String)
    (now : Int) (p : JwtPayload) (cid : Nat) (u : Company)
    (hdec : decode_token cfg tok "access" now = .ok p)
    (hcid : p.company_id = some cid)
    (hfind : db.find? (fun c => c.id == cid && c.is_active) = some u)
    (hold : oldPw ≠ "")
    (hverify : verify_password pb oldPw u.password_hash = true)
    (hstrong : (validate_password_strength newPw).valid = true) :
    (change_password cfg pb tok oldPw newPw db store salt now).1
        = .ok { success := true,
                message := "Password changed successfully. Please login again." }
    ∧ (change_password cfg pb tok oldPw newPw db store salt now).2.1
        = db.map (fun v2 => if v2.id = cid then
            { v2 with password_hash := hash_password pb salt newPw } else v2)
    ∧ (∀ k d, (change_password cfg pb tok oldPw newPw db store salt now).2.2 k = some d
        → d.company_id = cid → d.is_active = false)
    ∧ (∀ rt d, (change_password cfg pb tok oldPw newPw db store salt now).2.2 rt = some d
        → d.company_id = cid
        → ∀ t, refresh_access_token cfg
            ((change_password cfg pb tok oldPw newPw db store salt now).2.2) rt now
            ≠ .ok t) := by
  have hnew : newPw ≠ "" := by
    intro h
    rw [h] at hstrong
    exact absurd hstrong (by decide)
  have g : change_password cfg pb tok oldPw newPw db store salt now
      = (.ok { success := true,
               message := "Password changed successfully. Please login again." },
         db.map (fun v2 => if v2.id = cid then
           { v2 with password_hash := hash_password pb salt newPw } else v2),
         revoke_all_sessions store cid) := by
    simp [change_password, hold, hnew, hstrong, hdec, hcid, hfind, hverify]
  refine ⟨by rw [g], by rw [g], ?_, ?_⟩
  · intro k d hk hc
    rw [g] at hk
    exact revoke_all_sessions_inactive store cid k d hk hc
  · intro rt d hrt hc t
    rw [g] at hrt ⊢
    exact refresh_fails_on_inactive cfg (revoke_all_sessions store cid) rt now d hrt
      (revoke_all_sessions_inactive store cid rt d hrt hc) t

/-- Access token of tenant 5 for the C9 witness. -/
def accessTok5W : Jwt :=
  { payload :=
      { company_id := some 5, email := some "user@x.com",
        subscription_plan := some "basic", iat := 0, exp := 100,
        typ := some "access" },
    secret := "test-secret", alg := "HS256" }

/-- Witness for C9: a concrete password change for tenant 5 succeeds. -/
theorem change_password_success_revokes_witness :
    (change_password cfgW pbTest accessTok5W "OldPass1!" "Str0ng!Pass" [companyW]
        storeW "1b" 10).1
      = .ok { success := true,
              message := "Password changed successfully. Please login again." } :=
  (change_password_success_revokes cfgW pbTest accessTok5W "OldPass1!" "Str0ng!Pass"
    [companyW] storeW "1b" 10 accessTok5W.payload 5 companyW
    rfl rfl (by decide) (by decide) (by decide) (by decide)).1

/-- C10: with the demo credentials (after lowercasing and trimming the
email), login succeeds identically for every digest function and every
state of the persistence layer - present, absent, or lacking the demo
record - issuing tokens for company 1 with plan `professional` and
creating an active session for tenant 1. -/
theorem demo_login_bypasses_persistence (cfg : Config) (pb pb' : Pbkdf)
    (dbP dbP' : Option (List Company)) (store : SessionStore)
    (email password : String) (now : Int)
    (he : pyStrip (pyLower email) = demoEmail) (hp : password = demoPassword) :
    login_user cfg pb dbP store email password now
        = login_user cfg pb' dbP' store email password now
    ∧ ∃ r, (login_user cfg pb dbP store email password now).1 = .ok r
        ∧ r.user_id = 1
        ∧ r.user_subscription_plan = "professional"
        ∧ r.access_token.payload.company_id = some 1
        ∧ r.access_token.payload.typ = some "access"
        ∧ r.refresh_token.payload.company_id = some 1
        ∧ r.refresh_token.payload.typ = some "refresh"
        ∧ (login_user cfg pb dbP store email password now).2 r.refresh_token
            = some { company_id := 1, created_at := now, is_active := true } := by
  have hcond : pyStrip (pyLower email) = demoEmail ∧ password = demoPassword := ⟨he, hp⟩
  constructor
  · simp only [login_user]
    rw [if_pos hcond, if_pos hcond]
  · simp only [login_user]
    rw [if_pos hcond]
    refine ⟨_, rfl, rfl, rfl, rfl, rfl, rfl, rfl, ?_⟩
    simp [create_session]

/-- Witness for C10: the demo login result is independent of the database
pool. -/
theorem demo_login_bypasses_persistence_witness :
    login_user cfgW pbTest none emptyStore "  DEMO@BlackFangIntel.com " "demo123" 0
      = login_user cfgW pbTest (some [companyW]) emptyStore
          "  DEMO@BlackFangIntel.com " "demo123" 0 :=
  (demo_login_bypasses_persistence cfgW pbTest pbTest none (some [companyW]) emptyStore
    "  DEMO@BlackFangIntel.com " "demo123" 0 (by decide) rfl).1
